import Mathlib

/-!
Verification of the irrigation decision logic of the AutomatedPlanter
repository, shallowly embedded from `plant_config.py`, `main.py` and
`raspberry_pi_core.py`.  Timestamps are modelled as integer seconds since
the epoch (Python `datetime` subtraction followed by `.days` becomes
integer floor division of the difference by 86400, matching `timedelta.days`
semantics); Python floats are modelled as rationals.
-/

namespace Planter

/-- The `custom_settings` dict built by `PlantConfig.add_plant`
(`plant_config.py`). -/
structure CustomSettings where
  water_amount : ℚ
  watering_frequency : ℤ
  light_min : ℚ
  light_max : ℚ
  soil_moisture_min : ℚ
  soil_moisture_max : ℚ
  humidity_min : ℚ
  humidity_max : ℚ
  temperature_min : ℚ
  temperature_max : ℚ
deriving Repr, DecidableEq

/-- One entry of `config["active_plants"]`, as built by `PlantConfig.add_plant`
(`plant_config.py`). -/
structure ActivePlant where
  name : String
  position : ℤ
  plant_id : ℤ
  last_watered : Option ℤ
  last_checked : Option ℤ
  status : String
  custom_settings : CustomSettings
deriving Repr, DecidableEq

/-- One row of the reference plant catalog (`plant_database.py`), with the
fields `PlantConfig.add_plant` consumes. -/
structure DbPlant where
  name : String
  id : ℤ
  water_amount : ℚ
  watering_frequency : ℤ
  light_min : ℚ
  light_max : ℚ
  soil_moisture_min : ℚ
  soil_moisture_max : ℚ
  humidity_min : ℚ
  humidity_max : ℚ
  temperature_min : ℚ
  temperature_max : ℚ
deriving Repr, DecidableEq

/-- `PlantDatabase.get_plant_by_name` (`plant_database.py`): first catalog row
with the given name, if any. -/
def get_plant_by_name (db : List DbPlant) (name : String) : Option DbPlant :=
  db.find? (fun p => p.name == name)

/-- `PlantConfig.get_plant_at_position` (`plant_config.py`): first active plant
at the given position, if any. -/
def get_plant_at_position (active_plants : List ActivePlant) (position : ℤ) :
    Option ActivePlant :=
  active_plants.find? (fun p => p.position == position)

/-- `PlantConfig.add_plant` (`plant_config.py`): look the species up in the
catalog, refuse if the position is already occupied, otherwise append a fresh
entry with `last_watered = None` and status `"active"`.  Returns the Python
boolean result together with the updated `active_plants` list. -/
def add_plant (db : List DbPlant) (active_plants : List ActivePlant)
    (plant_name : String) (position : ℤ) : Bool × List ActivePlant :=
  match get_plant_by_name db plant_name with
  | none => (false, active_plants)
  | some plant =>
    if active_plants.any (fun ap => ap.position == position) then
      (false, active_plants)
    else
      (true, active_plants ++
        [{ name := plant.name
           position := position
           plant_id := plant.id
           last_watered := none
           last_checked := none
           status := "active"
           custom_settings :=
             { water_amount := plant.water_amount
               watering_frequency := plant.watering_frequency
               light_min := plant.light_min
               light_max := plant.light_max
               soil_moisture_min := plant.soil_moisture_min
               soil_moisture_max := plant.soil_moisture_max
               humidity_min := plant.humidity_min
               humidity_max := plant.humidity_max
               temperature_min := plant.temperature_min
               temperature_max := plant.temperature_max } }])

/-- `PlantConfig.remove_plant` (`plant_config.py`): pop the first plant at the
given position; report whether one was found. -/
def remove_plant : List ActivePlant → ℤ → Bool × List ActivePlant
  | [], _ => (false, [])
  | p :: rest, position =>
    if p.position == position then (true, rest)
    else
      let r := remove_plant rest position
      (r.1, p :: r.2)

/-- `PlantConfig.update_plant_status` (`plant_config.py`): set the status and
`last_checked` time of the first plant at the given position. -/
def update_plant_status : List ActivePlant → ℤ → String → ℤ → List ActivePlant
  | [], _, _, _ => []
  | p :: rest, position, status, now =>
    if p.position == position then
      { p with status := status, last_checked := some now } :: rest
    else
      p :: update_plant_status rest position status now

/-- `PlantConfig.update_watering_time` (`plant_config.py`): set `last_watered`
of the first plant at the given position to the current time. -/
def update_watering_time : List ActivePlant → ℤ → ℤ → List ActivePlant
  | [], _, _ => []
  | p :: rest, position, now =>
    if p.position == position then
      { p with last_watered := some now } :: rest
    else
      p :: update_watering_time rest position now

/-- Python `(current_time - last_watered).days`: the whole-day difference,
floored, exactly `timedelta.days` on second-resolution timestamps. -/
def days_since_watering (now last_watered : ℤ) : ℤ :=
  Int.fdiv (now - last_watered) 86400

/-- The per-plant due test inside `PlantConfig.get_plants_needing_water`
(`plant_config.py`): a never-watered plant is due; otherwise the plant is due
iff the whole-day difference since `last_watered` has reached
`watering_frequency`. -/
def needs_watering (plant : ActivePlant) (now : ℤ) : Bool :=
  match plant.last_watered with
  | none => true
  | some t => days_since_watering now t ≥ plant.custom_settings.watering_frequency

/-- `PlantConfig.get_plants_needing_water` (`plant_config.py`): plants whose
status is `"active"` and which are due per `needs_watering`. -/
def get_plants_needing_water (active_plants : List ActivePlant) (now : ℤ) :
    List ActivePlant :=
  active_plants.filter (fun plant => plant.status == "active" && needs_watering plant now)

/-- The dict returned by `PlantConfig.validate_sensor_reading`
(`plant_config.py`); a Python dict lacking the `action` key is modelled with
`action = none`. -/
structure ValidationResult where
  valid : Bool
  message : String
  action : Option String
deriving Repr, DecidableEq

/-- `PlantConfig.validate_sensor_reading` (`plant_config.py`): compare one
reading against the plant's bounds for the given sensor type; out-of-range
readings yield `valid = false`, a message quoting the value and the violated
bound, and the corrective action. -/
def validate_sensor_reading (active_plants : List ActivePlant) (position : ℤ)
    (sensor_type : String) (value : ℚ) : ValidationResult :=
  match get_plant_at_position active_plants position with
  | none => { valid := false, message := "No plant at position", action := none }
  | some plant =>
    let requirements := plant.custom_settings
    if sensor_type == "soil_moisture" then
      if value < requirements.soil_moisture_min then
        { valid := false
          message := "Soil too dry (" ++ toString value ++ "% < " ++
            toString requirements.soil_moisture_min ++ "%)"
          action := some "water" }
      else if value > requirements.soil_moisture_max then
        { valid := false
          message := "Soil too wet (" ++ toString value ++ "% > " ++
            toString requirements.soil_moisture_max ++ "%)"
          action := some "drain" }
      else { valid := true, message := "OK", action := none }
    else if sensor_type == "temperature" then
      if value < requirements.temperature_min then
        { valid := false
          message := "Temperature too low (" ++ toString value ++ "°C < " ++
            toString requirements.temperature_min ++ "°C)"
          action := some "heat" }
      else if value > requirements.temperature_max then
        { valid := false
          message := "Temperature too high (" ++ toString value ++ "°C > " ++
            toString requirements.temperature_max ++ "°C)"
          action := some "cool" }
      else { valid := true, message := "OK", action := none }
    else if sensor_type == "humidity" then
      if value < requirements.humidity_min then
        { valid := false
          message := "Humidity too low (" ++ toString value ++ "% < " ++
            toString requirements.humidity_min ++ "%)"
          action := some "humidify" }
      else if value > requirements.humidity_max then
        { valid := false
          message := "Humidity too high (" ++ toString value ++ "% > " ++
            toString requirements.humidity_max ++ "%)"
          action := some "dehumidify" }
      else { valid := true, message := "OK", action := none }
    else if sensor_type == "light" then
      if value < requirements.light_min then
        { valid := false
          message := "Light too low (" ++ toString value ++ " lux < " ++
            toString requirements.light_min ++ " lux)"
          action := some "increase_light" }
      else if value > requirements.light_max then
        { valid := false
          message := "Light too high (" ++ toString value ++ " lux > " ++
            toString requirements.light_max ++ " lux)"
          action := some "decrease_light" }
      else { valid := true, message := "OK", action := none }
    else { valid := true, message := "OK", action := none }

/-- Python `dict.get` on a sensor-data dict with numeric values, modelled as
an association list. -/
def dictGet (sensor_data : List (String × ℚ)) (key : String) : Option ℚ :=
  (sensor_data.find? (fun kv => kv.1 == key)).map (fun kv => kv.2)

/-- Python `a or b` on optional numeric operands: the left operand when it is
truthy (present and nonzero), otherwise the right operand — `0` is falsy.
From the or-chain in `AutomatedPlanter.log_sensor_data` (`main.py`). -/
def pyOrNum (a b : Option ℚ) : Option ℚ :=
  match a with
  | none => b
  | some v => if v == 0 then b else some v

/-- The reading `AutomatedPlanter.log_sensor_data` (`main.py`) extracts for one
sensor type: `sensor_data.get(t + "_percent") or sensor_data.get(t + "_celsius")
or sensor_data.get(t + "_lux")`, left associated as in Python. -/
def getSensorValue (sensor_data : List (String × ℚ)) (sensor_type : String) :
    Option ℚ :=
  pyOrNum
    (pyOrNum (dictGet sensor_data (sensor_type ++ "_percent"))
             (dictGet sensor_data (sensor_type ++ "_celsius")))
    (dictGet sensor_data (sensor_type ++ "_lux"))

/-- The validation `AutomatedPlanter.log_sensor_data` (`main.py`) performs for
one plant and one sensor type: `none` when the or-chain yields no value, in
which case the quantity is skipped entirely — no warning is printed and no
corrective action is triggered. -/
def log_sensor_validation (active_plants : List ActivePlant) (position : ℤ)
    (sensor_type : String) (sensor_data : List (String × ℚ)) :
    Option ValidationResult :=
  match getSensorValue sensor_data sensor_type with
  | none => none
  | some v => some (validate_sensor_reading active_plants position sensor_type v)

/-- The spec's `Evaluate`: the missing-reading guard of
`AutomatedPlanter.log_sensor_data` (`main.py`) composed with
`validate_sensor_reading`.  A skipped quantity is recorded as the neutral
result (valid, no action), which is exactly the observable behavior of the
skip: nothing is flagged and nothing is actuated. -/
def evaluate (active_plants : List ActivePlant) (position : ℤ)
    (sensor_type : String) (sensor_data : List (String × ℚ)) : ValidationResult :=
  match log_sensor_validation active_plants position sensor_type sensor_data with
  | none => { valid := true, message := "OK", action := none }
  | some r => r

/-- The arguments of one `hardware.control_pump` call. -/
structure PumpCommand where
  pump_num : ℤ
  duration : ℚ
  water_amount : ℚ
deriving Repr, DecidableEq

/-- The pump call `AutomatedPlanter.trigger_watering` (`main.py`) issues for a
plant: duration from the fixed 100 ml/s flow rate, pump chosen by position
parity. -/
def trigger_watering_command (plant : ActivePlant) : PumpCommand :=
  { pump_num := plant.position % 2 + 1
    duration := plant.custom_settings.water_amount / 100
    water_amount := plant.custom_settings.water_amount }

/-- `AutomatedPlanter.trigger_watering` (`main.py`), state part: `pump_success`
is the boolean the hardware `control_pump` call returns (an external input of
the model).  On success the watering time is updated and the status reset to
`"active"`; on failure only a message is printed and the configuration is left
untouched. -/
def trigger_watering (active_plants : List ActivePlant) (position : ℤ)
    (pump_success : Bool) (now : ℤ) : List ActivePlant :=
  match get_plant_at_position active_plants position with
  | none => active_plants
  | some _ =>
    if pump_success then
      update_plant_status (update_watering_time active_plants position now)
        position "active" now
    else
      active_plants

/-- One entry of the simplified `plant_config["active_plants"]` of
`RaspberryPiCore` (`raspberry_pi_core.py`). -/
structure CorePlant where
  name : String
  position : ℤ
  water_amount : ℚ
  watering_frequency : ℤ
deriving Repr, DecidableEq

/-- The `RaspberryPiCore` state the watering logic touches: the plant list and
the single `system_status["pump_status"]["last_watered"]` field shared by all
plants (`raspberry_pi_core.py`). -/
structure CoreState where
  active_plants : List CorePlant
  last_watered : Option ℤ
deriving Repr, DecidableEq

/-- `RaspberryPiCore.check_plants_needing_water` (`raspberry_pi_core.py`):
every plant is tested against the one shared `last_watered` timestamp; a state
never watered makes every plant due. -/
def check_plants_needing_water (s : CoreState) (now : ℤ) : List CorePlant :=
  s.active_plants.filter (fun plant =>
    match s.last_watered with
    | none => true
    | some t => Int.fdiv (now - t) 86400 ≥ plant.watering_frequency)

/-- The pump call `RaspberryPiCore.water_plant` (`raspberry_pi_core.py`)
issues: same 100 ml/s flow-rate and position-parity arithmetic as
`trigger_watering_command`. -/
def water_plant_command (plant : CorePlant) : PumpCommand :=
  { pump_num := plant.position % 2 + 1
    duration := plant.water_amount / 100
    water_amount := plant.water_amount }

/-- `RaspberryPiCore.water_plant` (`raspberry_pi_core.py`), state part: on pump
success the shared `last_watered` field is set to the current time; on failure
the state is unchanged.  Returns the boolean result and the new state. -/
def water_plant (s : CoreState) (_plant : CorePlant) (pump_success : Bool)
    (now : ℤ) : Bool × CoreState :=
  if pump_success then (true, { s with last_watered := some now })
  else (false, s)

/-- The position-uniqueness invariant of the active-plant list (spec §3):
no two entries share a position. -/
def positions_unique (active_plants : List ActivePlant) : Prop :=
  (active_plants.map (fun p => p.position)).Pairwise (fun a b => a ≠ b)

/-- Demo care settings: soil moisture bounds [20,40], temperature [18,25],
humidity [40,60], light [50,500], 250 ml every 14 days. -/
def demoSettings : CustomSettings :=
  { water_amount := 250
    watering_frequency := 14
    light_min := 50
    light_max := 500
    soil_moisture_min := 20
    soil_moisture_max := 40
    humidity_min := 40
    humidity_max := 60
    temperature_min := 18
    temperature_max := 25 }

/-- A demo plant at position 0, active, watered at time 1000. -/
def demoPlant : ActivePlant :=
  { name := "Snake Plant"
    position := 0
    plant_id := 1
    last_watered := some 1000
    last_checked := none
    status := "active"
    custom_settings := demoSettings }

/-- The "Snake Plant" catalog row used by the demos (`raspberry_pi_core.py`
lists 250 ml every 14 days). -/
def dbSnake : DbPlant :=
  { name := "Snake Plant"
    id := 1
    water_amount := 250
    watering_frequency := 14
    light_min := 50
    light_max := 500
    soil_moisture_min := 20
    soil_moisture_max := 40
    humidity_min := 40
    humidity_max := 60
    temperature_min := 18
    temperature_max := 25 }

/-- The "Snake Plant" entry of the simplified core configuration
(`raspberry_pi_core.py`, line 38). -/
def coreSnake : CorePlant :=
  { name := "Snake Plant"
    position := 0
    water_amount := 250
    watering_frequency := 14 }

/-- Claim C1: for every profile with positive watering frequency,
`needs_watering` is true for a never-watered plant at any time; otherwise it is
true iff the whole-day difference between now and `last_watered`, truncated to
whole days, has reached the frequency; in particular, less than one full day
elapsed (for example 23:59 to 00:01 the next calendar day) is never due. -/
theorem needs_watering_spec (plant : ActivePlant) (now : ℤ)
    (hfreq : 0 < plant.custom_settings.watering_frequency) :
    (plant.last_watered = none → needs_watering plant now = true) ∧
    (∀ t, plant.last_watered = some t →
      needs_watering plant now =
        decide (days_since_watering now t ≥ plant.custom_settings.watering_frequency)) ∧
    (∀ t, plant.last_watered = some t → 0 ≤ now - t → now - t < 86400 →
      needs_watering plant now = false) := by
  refine ⟨?_, ?_, ?_⟩
  · intro h
    simp [needs_watering, h]
  · intro t h
    simp [needs_watering, h]
  · intro t h h0 h1
    have hz : days_since_watering now t = 0 := by
      rw [days_since_watering, Int.fdiv_eq_ediv _ (by norm_num)]
      exact Int.ediv_eq_zero_of_lt h0 h1
    simp [needs_watering, h, hz]
    omega

/-- Witness for C1: a plant watered at 23:59 (second 86340) is not due at
00:01 the next day (second 86460); with frequency 14, watering at time 0 is
not due at 13 days and due at 14 days; a never-watered plant is due. -/
theorem needs_watering_spec_witness :
    needs_watering { demoPlant with last_watered := none } 0 = true ∧
    needs_watering { demoPlant with last_watered := some 86340 } 86460 = false ∧
    needs_watering { demoPlant with last_watered := some 0 } (13 * 86400) = false ∧
    needs_watering { demoPlant with last_watered := some 0 } (14 * 86400) = true := by
  have h1 := needs_watering_spec { demoPlant with last_watered := none } 0 (by decide)
  have h2 := needs_watering_spec { demoPlant with last_watered := some 86340 } 86460 (by decide)
  have h3 := needs_watering_spec { demoPlant with last_watered := some 0 } (13 * 86400) (by decide)
  have h4 := needs_watering_spec { demoPlant with last_watered := some 0 } (14 * 86400) (by decide)
  refine ⟨h1.1 rfl, ?_, ?_, ?_⟩
  · rw [h2.2.1 86340 rfl]; decide
  · rw [h3.2.1 0 rfl]; decide
  · rw [h4.2.1 0 rfl]; decide

/-- Claim C10: `get_plants_needing_water` only ever returns plants whose
status field is exactly `"active"`; a plant in any other status is never
reported as needing water, whatever its watering history. -/
theorem get_plants_needing_water_active_only (active_plants : List ActivePlant)
    (now : ℤ) (p : ActivePlant) (hstatus : p.status ≠ "active") :
    p ∉ get_plants_needing_water active_plants now := by
  intro hmem
  rw [get_plants_needing_water, List.mem_filter, Bool.and_eq_true] at hmem
  exact hstatus (by simpa using hmem.2.1)

/-- Witness for C10: a never-watered plant whose status is `"needs_water"` is
not in the needing-water list. -/
theorem get_plants_needing_water_active_only_witness :
    { demoPlant with status := "needs_water", last_watered := none } ∉
      get_plants_needing_water
        [{ demoPlant with status := "needs_water", last_watered := none }] 0 :=
  get_plants_needing_water_active_only _ 0 _ (by decide)

/-- Claim C9: in the simplified core variant the `last_watered` timestamp is
one shared field; after any successful watering at time `now`, a plant is in
the needing-water list at time `now2` iff the whole-day difference from that
single shared event has reached its own frequency — its per-plant history is
irrelevant. -/
theorem check_plants_shared_last_watered (s : CoreState) (plant p : CorePlant)
    (now now2 : ℤ) :
    (water_plant s plant true now).1 = true ∧
    (p ∈ check_plants_needing_water (water_plant s plant true now).2 now2 ↔
      p ∈ s.active_plants ∧
        Int.fdiv (now2 - now) 86400 ≥ p.watering_frequency) := by
  constructor
  · rfl
  · simp [water_plant, check_plants_needing_water, List.mem_filter]

/-- Claim C7: both watering paths issue a pump command whose pump index is
(position mod 2) + 1 — hence always pump 1 or pump 2 — and whose duration is
exactly the requested millilitres divided by the fixed 100 ml/s flow rate;
250 ml gives exactly 2.5 seconds. -/
theorem pump_glue_spec (plant : ActivePlant) (core : CorePlant) :
    (trigger_watering_command plant).pump_num = plant.position % 2 + 1 ∧
    ((trigger_watering_command plant).pump_num = 1 ∨
      (trigger_watering_command plant).pump_num = 2) ∧
    (trigger_watering_command plant).duration =
      plant.custom_settings.water_amount / 100 ∧
    (plant.custom_settings.water_amount = 250 →
      (trigger_watering_command plant).duration = 2.5) ∧
    (water_plant_command core).pump_num = core.position % 2 + 1 ∧
    (water_plant_command core).duration = core.water_amount / 100 ∧
    (core.water_amount = 250 → (water_plant_command core).duration = 2.5) := by
  refine ⟨rfl, ?_, rfl, ?_, rfl, rfl, ?_⟩
  · rcases Int.emod_two_eq plant.position with h | h <;>
      simp [trigger_watering_command, h]
  · intro h
    simp only [trigger_watering_command, h]
    norm_num
  · intro h
    simp only [water_plant_command, h]
    norm_num

/-- Witness for C7: the demo 250 ml plant at position 0 uses pump 1 for
exactly 2.5 seconds, in both variants. -/
theorem pump_glue_spec_witness :
    (trigger_watering_command demoPlant).pump_num = 1 ∧
    (trigger_watering_command demoPlant).duration = 2.5 ∧
    (water_plant_command coreSnake).duration = 2.5 := by
  have h := pump_glue_spec demoPlant coreSnake
  refine ⟨?_, h.2.2.2.1 rfl, h.2.2.2.2.2.2 rfl⟩
  rw [h.1]; decide

/-- Updating the watering time commutes with position lookup: the first plant
found at the position is the first plant updated. -/
theorem get_plant_at_position_update_watering_time (plants : List ActivePlant)
    (position now : ℤ) :
    get_plant_at_position (update_watering_time plants position now) position =
      (get_plant_at_position plants position).map
        (fun p => { p with last_watered := some now }) := by
  induction plants with
  | nil => rfl
  | cons p rest ih =>
    rw [update_watering_time]
    by_cases h : (p.position == position) = true
    · rw [if_pos h]
      simp only [get_plant_at_position, List.find?_cons] at *
      simp [h]
    · rw [if_neg h]
      simp only [get_plant_at_position, List.find?_cons] at *
      simp [h, ih]

/-- Updating the status commutes with position lookup: the first plant found
at the position is the first plant updated. -/
theorem get_plant_at_position_update_plant_status (plants : List ActivePlant)
    (position : ℤ) (status : String) (now : ℤ) :
    get_plant_at_position (update_plant_status plants position status now) position =
      (get_plant_at_position plants position).map
        (fun p => { p with status := status, last_checked := some now }) := by
  induction plants with
  | nil => rfl
  | cons p rest ih =>
    rw [update_plant_status]
    by_cases h : (p.position == position) = true
    · rw [if_pos h]
      simp only [get_plant_at_position, List.find?_cons] at *
      simp [h]
    · rw [if_neg h]
      simp only [get_plant_at_position, List.find?_cons] at *
      simp [h, ih]

/-- Counterexample to claim C5: when the pump reports failure,
`trigger_watering` leaves the whole configuration untouched — the plant's
status stays `"active"`; it is not set to `"error"` as the claim states. -/
theorem trigger_watering_failure_status_cex :
    trigger_watering [demoPlant] 0 false 5000 = [demoPlant] ∧
    demoPlant.status = "active" ∧ demoPlant.last_watered = some 1000 :=
  ⟨rfl, rfl, rfl⟩

/-- Claim C5 as amended: on pump failure `trigger_watering` leaves the
configuration entirely unchanged (so `last_watered` is untouched but the
status is also unchanged, not set to error); on pump success the plant at the
position gets `last_watered = now` and status `"active"`.  In the core variant
a failed `water_plant` likewise leaves the state unchanged. -/
theorem trigger_watering_atomic (plants : List ActivePlant) (position now : ℤ)
    (plant : ActivePlant) (s : CoreState) (core : CorePlant)
    (hfind : get_plant_at_position plants position = some plant) :
    trigger_watering plants position false now = plants ∧
    (get_plant_at_position (trigger_watering plants position true now)
        position).map (fun p => p.last_watered) = some (some now) ∧
    (get_plant_at_position (trigger_watering plants position true now)
        position).map (fun p => p.status) = some "active" ∧
    water_plant s core false now = (false, s) := by
  have hsucc : trigger_watering plants position true now =
      update_plant_status (update_watering_time plants position now)
        position "active" now := by
    simp [trigger_watering, hfind]
  refine ⟨by simp [trigger_watering, hfind], ?_, ?_, rfl⟩ <;>
    rw [hsucc, get_plant_at_position_update_plant_status,
      get_plant_at_position_update_watering_time, hfind] <;> rfl

/-- Witness for the amended C5 at a concrete configuration. -/
theorem trigger_watering_atomic_witness :
    trigger_watering [demoPlant] 0 false 7777 = [demoPlant] ∧
    (get_plant_at_position (trigger_watering [demoPlant] 0 true 7777) 0).map
      (fun p => p.last_watered) = some (some 7777) ∧
    (get_plant_at_position (trigger_watering [demoPlant] 0 true 7777) 0).map
      (fun p => p.status) = some "active" ∧
    water_plant ⟨[coreSnake], none⟩ coreSnake false 7777 =
      (false, ⟨[coreSnake], none⟩) :=
  trigger_watering_atomic [demoPlant] 0 7777 demoPlant ⟨[coreSnake], none⟩
    coreSnake rfl

/-- Removal returns a sublist of the original active-plant list. -/
theorem remove_plant_sublist (plants : List ActivePlant) (position : ℤ) :
    (remove_plant plants position).2.Sublist plants := by
  induction plants with
  | nil => simp [remove_plant]
  | cons p rest ih =>
    rw [remove_plant]
    by_cases h : (p.position == position) = true
    · rw [if_pos h]
      exact List.sublist_cons_self p rest
    · rw [if_neg h]
      exact List.Sublist.cons₂ p ih

/-- Status updates do not move plants between positions. -/
theorem update_plant_status_map_position (plants : List ActivePlant)
    (position : ℤ) (status : String) (now : ℤ) :
    (update_plant_status plants position status now).map (fun p => p.position) =
      plants.map (fun p => p.position) := by
  induction plants with
  | nil => rfl
  | cons p rest ih =>
    rw [update_plant_status]
    by_cases h : (p.position == position) = true
    · rw [if_pos h]; rfl
    · rw [if_neg h]
      simpa using ih

/-- Watering-time updates do not move plants between positions. -/
theorem update_watering_time_map_position (plants : List ActivePlant)
    (position now : ℤ) :
    (update_watering_time plants position now).map (fun p => p.position) =
      plants.map (fun p => p.position) := by
  induction plants with
  | nil => rfl
  | cons p rest ih =>
    rw [update_watering_time]
    by_cases h : (p.position == position) = true
    · rw [if_pos h]; rfl
    · rw [if_neg h]
      simpa using ih

/-- Claim C6: `add_plant` refuses an occupied position (returning `false` with
the list unchanged), and all four configuration-store operations preserve the
invariant that no two active plants share a position. -/
theorem position_invariant_preserved (db : List DbPlant)
    (plants : List ActivePlant) (name : String) (position : ℤ)
    (status : String) (now : ℤ) :
    ((∃ p ∈ plants, p.position = position) →
      add_plant db plants name position = (false, plants)) ∧
    (positions_unique plants →
      positions_unique (add_plant db plants name position).2 ∧
      positions_unique (remove_plant plants position).2 ∧
      positions_unique (update_plant_status plants position status now) ∧
      positions_unique (update_watering_time plants position now)) := by
  constructor
  · rintro ⟨p, hp, he⟩
    have hany : plants.any (fun ap => ap.position == position) = true :=
      List.any_eq_true.mpr ⟨p, hp, by simpa using he⟩
    cases hdb : get_plant_by_name db name <;> simp [add_plant, hdb, hany]
  · intro hu
    refine ⟨?_, ?_, ?_, ?_⟩
    · cases hdb : get_plant_by_name db name with
      | none => simpa [add_plant, hdb] using hu
      | some plant =>
        by_cases hocc : plants.any (fun ap => ap.position == position) = true
        · simpa [add_plant, hdb, hocc] using hu
        · have hfree : ∀ a ∈ plants, a.position ≠ position := by
            intro a ha
            have := List.any_eq_true.not.mp hocc
            push_neg at this
            simpa using this a ha
          rw [positions_unique] at hu ⊢
          simp only [add_plant, hdb, hocc, Bool.false_eq_true, if_false,
            List.map_append]
          rw [List.pairwise_append]
          refine ⟨hu, by simp, ?_⟩
          intro a ha b hb
          simp only [List.map_cons, List.map_nil, List.mem_singleton] at hb
          obtain ⟨q, hq, rfl⟩ := List.mem_map.mp ha
          rw [hb]
          exact hfree q hq
    · exact List.Pairwise.sublist
        (List.Sublist.map _ (remove_plant_sublist plants position)) hu
    · rw [positions_unique, update_plant_status_map_position]; exact hu
    · rw [positions_unique, update_watering_time_map_position]; exact hu

/-- Witness for C6: adding at the occupied position 0 fails and leaves the
list unchanged; removal preserves the uniqueness invariant. -/
theorem position_invariant_preserved_witness :
    add_plant [dbSnake] [demoPlant] "Peace Lily" 0 = (false, [demoPlant]) ∧
    positions_unique (add_plant [dbSnake] [demoPlant] "Snake Plant" 1).2 ∧
    positions_unique (remove_plant [demoPlant] 0).2 := by
  have h0 := position_invariant_preserved [dbSnake] [demoPlant] "Peace Lily" 0 "active" 0
  have h1 := position_invariant_preserved [dbSnake] [demoPlant] "Snake Plant" 1 "active" 0
  have hu : positions_unique [demoPlant] := by simp [positions_unique]
  exact ⟨h0.1 ⟨demoPlant, by simp, rfl⟩, (h1.2 hu).1, (h0.2 hu).2.1⟩

/-- Claim C2: for each of the four quantities, a reading strictly below the
minimum bound yields an invalid result carrying the quantity's too-low action
and a message quoting the reading and the violated bound; a reading strictly
above the maximum yields the too-high action likewise.  (The operation is a
pure function of its inputs, so it has no side effects.) -/
theorem validate_out_of_bounds_spec (plants : List ActivePlant) (position : ℤ)
    (plant : ActivePlant) (v : ℚ)
    (hfind : get_plant_at_position plants position = some plant)
    (hsoil : plant.custom_settings.soil_moisture_min ≤ plant.custom_settings.soil_moisture_max)
    (htemp : plant.custom_settings.temperature_min ≤ plant.custom_settings.temperature_max)
    (hhum : plant.custom_settings.humidity_min ≤ plant.custom_settings.humidity_max)
    (hlight : plant.custom_settings.light_min ≤ plant.custom_settings.light_max) :
    (v < plant.custom_settings.soil_moisture_min →
      validate_sensor_reading plants position "soil_moisture" v =
        { valid := false
          message := "Soil too dry (" ++ toString v ++ "% < " ++
            toString plant.custom_settings.soil_moisture_min ++ "%)"
          action := some "water" }) ∧
    (v > plant.custom_settings.soil_moisture_max →
      validate_sensor_reading plants position "soil_moisture" v =
        { valid := false
          message := "Soil too wet (" ++ toString v ++ "% > " ++
            toString plant.custom_settings.soil_moisture_max ++ "%)"
          action := some "drain" }) ∧
    (v < plant.custom_settings.temperature_min →
      validate_sensor_reading plants position "temperature" v =
        { valid := false
          message := "Temperature too low (" ++ toString v ++ "°C < " ++
            toString plant.custom_settings.temperature_min ++ "°C)"
          action := some "heat" }) ∧
    (v > plant.custom_settings.temperature_max →
      validate_sensor_reading plants position "temperature" v =
        { valid := false
          message := "Temperature too high (" ++ toString v ++ "°C > " ++
            toString plant.custom_settings.temperature_max ++ "°C)"
          action := some "cool" }) ∧
    (v < plant.custom_settings.humidity_min →
      validate_sensor_reading plants position "humidity" v =
        { valid := false
          message := "Humidity too low (" ++ toString v ++ "% < " ++
            toString plant.custom_settings.humidity_min ++ "%)"
          action := some "humidify" }) ∧
    (v > plant.custom_settings.humidity_max →
      validate_sensor_reading plants position "humidity" v =
        { valid := false
          message := "Humidity too high (" ++ toString v ++ "% > " ++
            toString plant.custom_settings.humidity_max ++ "%)"
          action := some "dehumidify" }) ∧
    (v < plant.custom_settings.light_min →
      validate_sensor_reading plants position "light" v =
        { valid := false
          message := "Light too low (" ++ toString v ++ " lux < " ++
            toString plant.custom_settings.light_min ++ " lux)"
          action := some "increase_light" }) ∧
    (v > plant.custom_settings.light_max →
      validate_sensor_reading plants position "light" v =
        { valid := false
          message := "Light too high (" ++ toString v ++ " lux > " ++
            toString plant.custom_settings.light_max ++ " lux)"
          action := some "decrease_light" }) := by
  refine ⟨?_, ?_, ?_, ?_, ?_, ?_, ?_, ?_⟩ <;> intro hv
  · simp [validate_sensor_reading, hfind, hv]
  · have hnl : ¬(v < plant.custom_settings.soil_moisture_min) :=
      not_lt.mpr (le_trans hsoil (le_of_lt hv))
    simp [validate_sensor_reading, hfind, hnl, hv]
  · simp [validate_sensor_reading, hfind, hv]
  · have hnl : ¬(v < plant.custom_settings.temperature_min) :=
      not_lt.mpr (le_trans htemp (le_of_lt hv))
    simp [validate_sensor_reading, hfind, hnl, hv]
  · simp [validate_sensor_reading, hfind, hv]
  · have hnl : ¬(v < plant.custom_settings.humidity_min) :=
      not_lt.mpr (le_trans hhum (le_of_lt hv))
    simp [validate_sensor_reading, hfind, hnl, hv]
  · simp [validate_sensor_reading, hfind, hv]
  · have hnl : ¬(v < plant.custom_settings.light_min) :=
      not_lt.mpr (le_trans hlight (le_of_lt hv))
    simp [validate_sensor_reading, hfind, hnl, hv]

/-- Witness for C2: soil moisture 15 against bounds [20,40] is invalid with
action water; light 550 against bounds [50,500] is invalid with action
decrease_light. -/
theorem validate_out_of_bounds_spec_witness :
    (validate_sensor_reading [demoPlant] 0 "soil_moisture" 15).valid = false ∧
    (validate_sensor_reading [demoPlant] 0 "soil_moisture" 15).action = some "water" ∧
    (validate_sensor_reading [demoPlant] 0 "light" 550).valid = false ∧
    (validate_sensor_reading [demoPlant] 0 "light" 550).action = some "decrease_light" := by
  have h15 := validate_out_of_bounds_spec [demoPlant] 0 demoPlant 15 rfl
    (by decide) (by decide) (by decide) (by decide)
  have h550 := validate_out_of_bounds_spec [demoPlant] 0 demoPlant 550 rfl
    (by decide) (by decide) (by decide) (by decide)
  refine ⟨?_, ?_, ?_, ?_⟩
  · rw [h15.1 (by decide)]
  · rw [h15.1 (by decide)]
  · rw [h550.2.2.2.2.2.2.2 (by decide)]
  · rw [h550.2.2.2.2.2.2.2 (by decide)]

/-- Claim C3: bounds are inclusive — a reading exactly at the minimum or
exactly at the maximum of any of the four quantities is valid with no
action. -/
theorem validate_inclusive_bounds (plants : List ActivePlant) (position : ℤ)
    (plant : ActivePlant)
    (hfind : get_plant_at_position plants position = some plant)
    (hsoil : plant.custom_settings.soil_moisture_min ≤ plant.custom_settings.soil_moisture_max)
    (htemp : plant.custom_settings.temperature_min ≤ plant.custom_settings.temperature_max)
    (hhum : plant.custom_settings.humidity_min ≤ plant.custom_settings.humidity_max)
    (hlight : plant.custom_settings.light_min ≤ plant.custom_settings.light_max) :
    validate_sensor_reading plants position "soil_moisture"
      plant.custom_settings.soil_moisture_min =
      { valid := true, message := "OK", action := none } ∧
    validate_sensor_reading plants position "soil_moisture"
      plant.custom_settings.soil_moisture_max =
      { valid := true, message := "OK", action := none } ∧
    validate_sensor_reading plants position "temperature"
      plant.custom_settings.temperature_min =
      { valid := true, message := "OK", action := none } ∧
    validate_sensor_reading plants position "temperature"
      plant.custom_settings.temperature_max =
      { valid := true, message := "OK", action := none } ∧
    validate_sensor_reading plants position "humidity"
      plant.custom_settings.humidity_min =
      { valid := true, message := "OK", action := none } ∧
    validate_sensor_reading plants position "humidity"
      plant.custom_settings.humidity_max =
      { valid := true, message := "OK", action := none } ∧
    validate_sensor_reading plants position "light"
      plant.custom_settings.light_min =
      { valid := true, message := "OK", action := none } ∧
    validate_sensor_reading plants position "light"
      plant.custom_settings.light_max =
      { valid := true, message := "OK", action := none } := by
  refine ⟨?_, ?_, ?_, ?_, ?_, ?_, ?_, ?_⟩ <;>
    simp [validate_sensor_reading, hfind, lt_irrefl, not_lt.mpr hsoil,
      not_lt.mpr htemp, not_lt.mpr hhum, not_lt.mpr hlight,
      not_lt_of_le hsoil, not_lt_of_le htemp, not_lt_of_le hhum,
      not_lt_of_le hlight]

/-- Witness for C3 at the demo plant: soil moisture readings of exactly 20 and
exactly 40 are both valid with no action. -/
theorem validate_inclusive_bounds_witness :
    validate_sensor_reading [demoPlant] 0 "soil_moisture" 20 =
      { valid := true, message := "OK", action := none } ∧
    validate_sensor_reading [demoPlant] 0 "light" 500 =
      { valid := true, message := "OK", action := none } := by
  have h := validate_inclusive_bounds [demoPlant] 0 demoPlant rfl
    (by decide) (by decide) (by decide) (by decide)
  exact ⟨h.1, h.2.2.2.2.2.2.2⟩

/-- The numeric entries of the sensor-data dict
`HardwareInterface.read_all_sensors` (`hardware_drivers.py`) produces, in
dict order; a sensor that produced no value contributes no usable entry. -/
def mkSensorData (temperature humidity soil_moisture light water : Option ℚ) :
    List (String × ℚ) :=
  (temperature.map (fun v => ("temperature_celsius", v))).toList ++
  (humidity.map (fun v => ("humidity_percent", v))).toList ++
  (soil_moisture.map (fun v => ("soil_moisture_percent", v))).toList ++
  (light.map (fun v => ("light_lux", v))).toList ++
  (water.map (fun v => ("water_tank_percentage", v))).toList

/-- Claim C4: the evaluation step is a total function (it cannot raise), and
when the snapshot carries no numeric reading for the requested quantity no
validation is performed at all — the result is the neutral one, valid with no
action; absence is never turned into the value zero. -/
theorem evaluate_missing_reading (plants : List ActivePlant) (position : ℤ)
    (sensor_type : String) (sensor_data : List (String × ℚ))
    (hmiss : getSensorValue sensor_data sensor_type = none) :
    log_sensor_validation plants position sensor_type sensor_data = none ∧
    (evaluate plants position sensor_type sensor_data).valid = true ∧
    (evaluate plants position sensor_type sensor_data).action = none := by
  have h1 : log_sensor_validation plants position sensor_type sensor_data = none := by
    simp [log_sensor_validation, hmiss]
  refine ⟨h1, ?_, ?_⟩ <;> simp [evaluate, h1]

/-- Witness for C4: a snapshot holding only a tank-level entry has no light
reading, so the light evaluation is neutral. -/
theorem evaluate_missing_reading_witness :
    log_sensor_validation [demoPlant] 0 "light"
      (mkSensorData none none none none (some 75)) = none ∧
    (evaluate [demoPlant] 0 "light"
      (mkSensorData none none none none (some 75))).valid = true ∧
    (evaluate [demoPlant] 0 "light"
      (mkSensorData none none none none (some 75))).action = none :=
  evaluate_missing_reading [demoPlant] 0 "light" _ rfl

/-- Counterexample to claim C8: a light reading of exactly 0 lux is NOT
treated as missing — `light_lux` is the last operand of the or-chain, so
Python's `or` returns it even though it is falsy; validation runs and flags
the reading (0 lux is below the demo minimum of 50), triggering the
increase_light action. -/
theorem zero_light_reading_validated_cex :
    log_sensor_validation [demoPlant] 0 "light"
      (mkSensorData none none none (some 0) none) ≠ none ∧
    (log_sensor_validation [demoPlant] 0 "light"
      (mkSensorData none none none (some 0) none)).map (fun r => r.valid) =
      some false ∧
    (log_sensor_validation [demoPlant] 0 "light"
      (mkSensorData none none none (some 0) none)).map (fun r => r.action) =
      some (some "increase_light") := by
  refine ⟨?_, ?_, ?_⟩ <;> decide

/-- Claim C8 as amended: over the sensor-data shape `read_all_sensors`
produces, a reading of exactly 0 for soil moisture, temperature or humidity is
falsy, so the or-chain yields no value and the quantity is skipped (no
validation, no action) even when 0 is below the configured minimum; a light
reading of 0, however, is the final operand of the chain, is returned, and is
validated. -/
theorem zero_reading_spec (plants : List ActivePlant) (position : ℤ)
    (temp hum soil light water : Option ℚ) :
    (soil = some 0 → log_sensor_validation plants position "soil_moisture"
      (mkSensorData temp hum soil light water) = none) ∧
    (temp = some 0 → log_sensor_validation plants position "temperature"
      (mkSensorData temp hum soil light water) = none) ∧
    (hum = some 0 → log_sensor_validation plants position "humidity"
      (mkSensorData temp hum soil light water) = none) ∧
    (light = some 0 → log_sensor_validation plants position "light"
      (mkSensorData temp hum soil light water) =
        some (validate_sensor_reading plants position "light" 0)) := by
  refine ⟨?_, ?_, ?_, ?_⟩
  · rintro rfl
    rcases temp with _ | tv <;> rcases hum with _ | hv <;>
      rcases light with _ | lv <;> rcases water with _ | wv <;> rfl
  · rintro rfl
    rcases hum with _ | hv <;> rcases soil with _ | sv <;>
      rcases light with _ | lv <;> rcases water with _ | wv <;> rfl
  · rintro rfl
    rcases temp with _ | tv <;> rcases soil with _ | sv <;>
      rcases light with _ | lv <;> rcases water with _ | wv <;> rfl
  · rintro rfl
    rcases temp with _ | tv <;> rcases hum with _ | hv <;>
      rcases soil with _ | sv <;> rcases water with _ | wv <;> rfl

/-- Witness for the amended C8: a snapshot whose soil-moisture reading is 0
(below the demo minimum of 20) produces no soil-moisture validation at all. -/
theorem zero_reading_spec_witness :
    log_sensor_validation [demoPlant] 0 "soil_moisture"
      (mkSensorData (some 22) (some 50) (some 0) (some 100) (some 75)) = none :=
  (zero_reading_spec [demoPlant] 0 (some 22) (some 50) (some 0) (some 100)
    (some 75)).1 rfl

end Planter
